import Mathlib

/-!
# Verification of the Azure DevOps MCP server tool layer

Shallow embedding of the tool handlers of `src/index.ts`, `src/tools/core.ts`
and the repo/work tool modules, together with proofs about their behaviour.

Conventions of the embedding:
* JavaScript exceptions are modelled with `Except JsError`; a handler without a
  `try/catch` block returns `Except JsError ToolResult` (errors propagate),
  a handler with a `catch` returns `ToolResult` directly.
* `null`/`undefined` remote results are modelled with `Option`: `none` is a
  nullish value, `some xs` a (possibly empty) array.  JavaScript truthiness of
  strings (`""` is falsy) is modelled by `jsTruthyStr`.
* Remote service calls are parameters of the handler definitions (functions
  returning `Except JsError _`); handlers whose claims concern call ordering
  additionally return the list of remote calls they issued, in order.
* `JSON.stringify(x, null, 2)` is modelled by concrete serialisation
  functions; the claims only depend on *which* value is serialised.
-/

/-- A thrown JavaScript value as observed by a `catch (error)` block:
an `Error` instance with a `message`, a `ReferenceError` for an unresolvable
identifier (`"<name> is not defined"` in Node), or a non-`Error` value. -/
inductive JsError where
  | error (message : String)
  | referenceError (name : String)
  | nonError
deriving DecidableEq, Repr

/-- `error instanceof Error ? error.message : 'Unknown error occurred'`
(a `ReferenceError` is an `Error` instance). -/
def JsError.caughtMessage : JsError → String
  | .error m => m
  | .referenceError n => n ++ " is not defined"
  | .nonError => "Unknown error occurred"

/-- One text content block of a tool result. -/
structure TextBlock where
  text : String
deriving DecidableEq, Repr

/-- The MCP tool result envelope: a content list plus an optional `isError`
flag (`none` models an object literal without an `isError` field). -/
structure ToolResult where
  content : List TextBlock
  isError : Option Bool := none
deriving DecidableEq, Repr

/-- JavaScript truthiness of a possibly-absent string: `undefined`/`null`
and `""` are falsy. -/
def jsTruthyStr : Option String → Bool
  | none => false
  | some s => !(s == "")

/-- `JSON.stringify` model: a JSON string literal. -/
def jsonStr (s : String) : String := "\x22" ++ s ++ "\x22"

/-- `JSON.stringify` model: a JSON array from already-serialised items. -/
def jsonArray (items : List String) : String :=
  "[" ++ String.intercalate ", " items ++ "]"

/-! ## Branch filtering (`src/unnamed/part_001`, lines 33–42) -/

/-- A git ref as returned by `getRefs`: its `name` may be absent. -/
structure GitRef where
  name : Option String
deriving DecidableEq, Repr

/-- The refs/heads namespace the branch filter keys on. -/
def headsNamespace : String := "refs/heads/"

/-- JavaScript `s.startsWith(pat)`. -/
def jsStartsWith (s pat : String) : Bool :=
  pat.data.isPrefixOf s.data

/-- JavaScript `String.replace` with a string pattern and empty replacement:
removes the first occurrence of `pat`, leaves the string unchanged when `pat`
does not occur. -/
def replaceFirstChars (pat : List Char) : List Char → List Char
  | [] => []
  | c :: rest =>
    if pat.isPrefixOf (c :: rest) then (c :: rest).drop pat.length
    else c :: replaceFirstChars pat rest

/-- JavaScript `s.replace(pat, "")`. -/
def jsReplaceFirst (s pat : String) : String :=
  ⟨replaceFirstChars pat.data s.data⟩

/-- Dropping the first `k` characters of a string. -/
def stringDrop (s : String) (k : Nat) : String :=
  ⟨s.data.drop k⟩

/-- `branches?.flatMap((branch) => (branch.name ? [branch.name] : []))`:
collects the names present (and truthy, i.e. non-empty). -/
def collectRefNames : List GitRef → List String
  | [] => []
  | b :: rest =>
    (if jsTruthyStr b.name then [b.name.getD ""] else []) ++ collectRefNames rest

/-- `branchesFilterOutIrrelevantProperties` from `part_001` lines 33–42:
collect names, keep those starting with `refs/heads/`, remove that substring
(first occurrence), then `slice(0, top)`. -/
def branchesFilterOutIrrelevantProperties (branches : List GitRef) (top : Nat) :
    List String :=
  ((((collectRefNames branches).filter
      fun branch => jsStartsWith branch headsNamespace).map
      fun branch => jsReplaceFirst branch headsNamespace).take top)

/-- The specification's reading of the transformation on a list of ref names:
keep the names starting with `refs/heads/`, strip that leading namespace
(its length in characters), truncate to at most `top`, in that order. -/
def branchNamesSpec (names : List String) (top : Nat) : List String :=
  (((names.filter fun n => jsStartsWith n headsNamespace).map
      fun n => stringDrop n headsNamespace.length).take top)

/-! ## Serialisation helpers (model of `JSON.stringify(x, null, 2)`) -/

/-- A JSON object from field name / already-serialised value pairs. -/
def jsonObj (fields : List (String × String)) : String :=
  "\x7b" ++ String.intercalate ", "
    (fields.map fun f => jsonStr f.1 ++ ": " ++ f.2) ++ "\x7d"

/-- A possibly-absent JSON string value. -/
def jsonOptStr : Option String → String
  | none => "null"
  | some s => jsonStr s

/-! ## Core tools (`src/src/tools/core.ts`) -/

/-- A team as returned by `coreApi.getTeams`. -/
structure Team where
  id : String
  name : String
  description : String
deriving DecidableEq, Repr

def serializeTeam (t : Team) : String :=
  jsonObj [("id", jsonStr t.id), ("name", jsonStr t.name),
           ("description", jsonStr t.description)]

/-- The `core_list_project_teams` handler (`core.ts` lines 28–55).  The whole
`try` body — connection acquisition, `getCoreApi`, `getTeams` — is modelled by
the `getTeams` outcome: `Except.error e` is any exception thrown inside the
`try`, `Except.ok none` a nullish `teams` value (the `if (!teams)` branch: an
empty array is truthy in JavaScript, so only `null`/`undefined` take it), and
`Except.ok (some l)` an array result. -/
def list_project_teams (getTeams : Except JsError (Option (List Team))) :
    ToolResult :=
  match getTeams with
  | .error e =>
      { content := [⟨"Error fetching project teams: " ++ e.caughtMessage⟩],
        isError := some true }
  | .ok none =>
      { content := [⟨"No teams found"⟩], isError := some true }
  | .ok (some teams) =>
      { content := [⟨jsonArray (teams.map serializeTeam)⟩] }

/-! ## Repo tools (`src/unnamed/part_001`) -/

/-- A repository as returned by `gitApi.getRepositories`; `defaultBranch` and
`remoteUrl` stand for the fields the handler's projection drops. -/
structure Repo where
  id : String
  name : String
  isDisabled : Bool
  isFork : Bool
  isInMaintenance : Bool
  webUrl : String
  size : Nat
  defaultBranch : String
  remoteUrl : String
deriving DecidableEq, Repr

/-- The projected repository shape built by the `list_repos_by_project`
handler (lines 130–138). -/
structure FilteredRepo where
  id : String
  name : String
  isDisabled : Bool
  isFork : Bool
  isInMaintenance : Bool
  webUrl : String
  size : Nat
deriving DecidableEq, Repr

def filterRepo (r : Repo) : FilteredRepo :=
  ⟨r.id, r.name, r.isDisabled, r.isFork, r.isInMaintenance, r.webUrl, r.size⟩

def serializeFilteredRepo (r : FilteredRepo) : String :=
  jsonObj [("id", jsonStr r.id), ("name", jsonStr r.name),
           ("isDisabled", toString r.isDisabled),
           ("isFork", toString r.isFork),
           ("isInMaintenance", toString r.isInMaintenance),
           ("webUrl", jsonStr r.webUrl), ("size", toString r.size)]

/-- Serialisation of `repositories?.map(...)`: a nullish receiver makes the
optional chain evaluate to `undefined`. -/
def serializeOptFilteredRepos : Option (List FilteredRepo) → String
  | none => "undefined"
  | some l => jsonArray (l.map serializeFilteredRepo)

/-- The `repo_list_repos_by_project` handler (lines 113–146).  It has no
`try/catch` and no emptiness check: an error from the remote call propagates,
and any array (empty included) is projected and serialised. -/
def list_repos_by_project
    (getRepositories : Except JsError (Option (List Repo))) :
    Except JsError ToolResult :=
  match getRepositories with
  | .error e => .error e
  | .ok repositories =>
      .ok { content :=
              [⟨serializeOptFilteredRepos
                  (repositories.map fun l => l.map filterRepo)⟩] }

/-- A pull-request comment as returned by `gitApi.createComment`. -/
structure Comment where
  id : Nat
  content : String
deriving DecidableEq, Repr

def serializeComment (c : Comment) : String :=
  jsonObj [("id", toString c.id), ("content", jsonStr c.content)]

/-- The `repo_reply_to_comment` handler (lines 461–486).  `connect` models
`getAzureDevOpsClient`/`getGitApi` acquisition; `createComment` takes the
comment content, repository id, pull request id, thread id and optional
project, as in the source call.  There is no `try/catch`: any exception
propagates out of the handler. -/
def reply_to_comment
    (connect : Except JsError Unit)
    (createComment : String → String → Nat → Nat → Option String →
      Except JsError Comment)
    (repositoryId : String) (pullRequestId : Nat) (threadId : Nat)
    (content : String) (project : Option String) :
    Except JsError ToolResult :=
  match connect with
  | .error e => .error e
  | .ok _ =>
      match createComment content repositoryId pullRequestId threadId project with
      | .error e => .error e
      | .ok comment => .ok { content := [⟨serializeComment comment⟩] }

/-! ## `repo_update_pull_request_status` (lines 86–111) -/

/-- The remote call the status-update handler would issue. -/
inductive UpdatePrCall where
  | updatePullRequest (status : Int) (repositoryId : String) (pullRequestId : Int)
deriving DecidableEq, Repr

/-- Resolution of the identifier `status` inside the handler body: the arrow
function destructures only `repositoryId` and `pullRequestId` (line 94), so
its parameter's `status` property is never bound to a variable, and neither
the surrounding module nor its imports declare a binding named `status`.
The identifier therefore resolves to nothing (`none`). -/
def scopeResolvedStatus : Option String := none

/-- Evaluation of `status === "active" ? 3 : 2` (line 97): with no binding for
`status` in scope, Node throws `ReferenceError: status is not defined`. -/
def statusTernary : Except JsError Int :=
  match scopeResolvedStatus with
  | none => .error (.referenceError "status")
  | some s => .ok (if s == "active" then 3 else 2)

/-- The `repo_update_pull_request_status` handler.  `updatePullRequest` models
the remote call, returning the serialised updated pull request; the trace
lists the update calls actually issued.  No `try/catch`: errors propagate. -/
def update_pull_request_status
    (connect : Except JsError Unit)
    (updatePullRequest : Int → String → Int → Except JsError String)
    (repositoryId : String) (pullRequestId : Int) (status : String) :
    Except JsError ToolResult × List UpdatePrCall :=
  match connect with
  | .error e => (.error e, [])
  | .ok _ =>
      match statusTernary with
      | .error e => (.error e, [])
      | .ok statusValue =>
          match updatePullRequest statusValue repositoryId pullRequestId with
          | .error e =>
              (.error e,
               [.updatePullRequest statusValue repositoryId pullRequestId])
          | .ok payload =>
              (.ok { content := [⟨payload⟩] },
               [.updatePullRequest statusValue repositoryId pullRequestId])

/-! ## Credential resolution and connection construction (`src/src/index.ts`) -/

/-- The fixed resource audience passed to `credential.getToken` (line 31). -/
def azureDevOpsResource : String := "499b84ac-1321-427f-aa17-267ca6975798/.default"

/-- A token issued by the ambient identity provider. -/
structure AccessToken where
  token : String
deriving DecidableEq, Repr

/-- The request handler selected for the connection. -/
inductive AuthHandler where
  | patHandler (secret : String)
  | bearerHandler (token : String)
deriving DecidableEq, Repr

/-- The `azdev.WebApi` connection: endpoint plus selected auth handler. -/
structure WebApiConn where
  orgUrl : String
  authHandler : AuthHandler
deriving DecidableEq, Repr

/-- `getAzureDevOpsToken` (`index.ts` lines 28–33): one `getToken` request at
the fixed resource audience; the identity provider is the `credentialGetToken`
parameter and its failure propagates. -/
def getAzureDevOpsToken
    (credentialGetToken : String → Except JsError AccessToken) :
    Except JsError AccessToken :=
  credentialGetToken azureDevOpsResource

/-- `getAzureDevOpsClient` (`index.ts` lines 35–51).  `adoPat` is the startup
secret (`args[1]`, possibly absent); `if (adoPat)` is JavaScript truthiness.
The second component lists the resource audiences of the identity-provider
token requests issued, in order. -/
def getAzureDevOpsClient (adoPat : Option String) (orgUrl : String)
    (credentialGetToken : String → Except JsError AccessToken) :
    Except JsError WebApiConn × List String :=
  if jsTruthyStr adoPat then
    (.ok ⟨orgUrl, .patHandler (adoPat.getD "")⟩, [])
  else
    match getAzureDevOpsToken credentialGetToken with
    | .error e => (.error e, [azureDevOpsResource])
    | .ok token => (.ok ⟨orgUrl, .bearerHandler token.token⟩, [azureDevOpsResource])

/-! ## Work tools (`src/unnamed/part_000`): `work_create_iterations` -/

/-- One element of the validated `iterations` argument. -/
structure IterationArgs where
  iterationName : String
  startDate : Option String := none
  finishDate : Option String := none
deriving DecidableEq, Repr

/-- `startDate ? new Date(startDate) : undefined` (lines 118–119): a falsy
(absent or empty) string becomes `undefined`; otherwise the parsed date is
represented by its source string. -/
def dateAttr (s : Option String) : Option String :=
  if jsTruthyStr s then s else none

/-- One `createOrUpdateClassificationNode` call: the node payload and the
project it is created in (the tree structure group is fixed to Iterations). -/
structure CreateNodeCall where
  name : String
  startDate : Option String
  finishDate : Option String
  project : String
deriving DecidableEq, Repr

/-- The call issued for one input iteration (lines 114–124). -/
def mkCreateNodeCall (project : String) (it : IterationArgs) : CreateNodeCall :=
  ⟨it.iterationName, dateAttr it.startDate, dateAttr it.finishDate, project⟩

/-- A classification node returned by the remote create call. -/
structure ClassificationNode where
  id : Nat
  name : String
deriving DecidableEq, Repr

def serializeNode (n : ClassificationNode) : String :=
  jsonObj [("id", toString n.id), ("name", jsonStr n.name)]

/-- The `for (const ... of iterations)` loop (lines 112–129): one sequential
create call per element in list order; a truthy result is pushed onto
`results`; a thrown error aborts the loop.  Returns the collected results (or
the error) together with the calls issued, in order. -/
def createIterationsLoop
    (createNode : CreateNodeCall → Except JsError (Option ClassificationNode))
    (project : String) :
    List IterationArgs →
      Except JsError (List ClassificationNode) × List CreateNodeCall
  | [] => (.ok [], [])
  | it :: rest =>
      let call := mkCreateNodeCall project it
      match createNode call with
      | .error e => (.error e, [call])
      | .ok iteration =>
          match createIterationsLoop createNode project rest with
          | (.error e, calls) => (.error e, call :: calls)
          | (.ok nodes, calls) =>
              match iteration with
              | some n => (.ok (n :: nodes), call :: calls)
              | none => (.ok nodes, call :: calls)

/-- The `work_create_iterations` handler (`part_000` lines 106–146), with its
`try/catch` (lines 138–145) and the `results.length === 0` check (line 131). -/
def create_iterations
    (connect : Except JsError Unit)
    (createNode : CreateNodeCall → Except JsError (Option ClassificationNode))
    (project : String) (iterations : List IterationArgs) :
    ToolResult × List CreateNodeCall :=
  match connect with
  | .error e =>
      ({ content := [⟨"Error creating iterations: " ++ e.caughtMessage⟩],
         isError := some true }, [])
  | .ok _ =>
      match createIterationsLoop createNode project iterations with
      | (.error e, calls) =>
          ({ content := [⟨"Error creating iterations: " ++ e.caughtMessage⟩],
             isError := some true }, calls)
      | (.ok results, calls) =>
          if results.length == 0 then
            ({ content := [⟨"No iterations were created"⟩],
               isError := some true }, calls)
          else
            ({ content := [⟨jsonArray (results.map serializeNode)⟩] }, calls)

/-! ## Pull-request listing (`src/unnamed/part_001`, lines 148–273) -/

/-- `data.authenticatedUser` from the identity lookup. -/
structure AuthenticatedUser where
  id : String
deriving DecidableEq, Repr

/-- The result of `getCurrentUserDetails`. -/
structure ConnectionData where
  authenticatedUser : AuthenticatedUser
deriving DecidableEq, Repr

/-- The search criteria object built by both listing handlers:
`repositoryId` is set only by the by-repo variant. -/
structure SearchCriteria where
  status : Int
  repositoryId : Option String := none
  creatorId : Option String := none
  reviewerId : Option String := none
deriving DecidableEq, Repr

/-- The remote calls a pull-request listing invocation can issue. -/
inductive PrRemoteCall where
  | identityLookup
  | pullRequestQuery (criteria : SearchCriteria)
deriving DecidableEq, Repr

/-- A pull request as returned by the remote query; `url` stands for the
fields the projection drops. -/
structure PullRequest where
  pullRequestId : Nat
  codeReviewId : Nat
  status : Int
  createdByDisplayName : Option String
  createdByUniqueName : Option String
  creationDate : String
  title : String
  isDraft : Bool
  repositoryName : Option String
  url : String
deriving DecidableEq, Repr

/-- The projection of `list_pull_requests_by_repo` (lines 191–202). -/
def serializePrByRepo (pr : PullRequest) : String :=
  jsonObj [("pullRequestId", toString pr.pullRequestId),
           ("codeReviewId", toString pr.codeReviewId),
           ("status", toString pr.status),
           ("createdBy", jsonObj
              [("displayName", jsonOptStr pr.createdByDisplayName),
               ("uniqueName", jsonOptStr pr.createdByUniqueName)]),
           ("creationDate", jsonStr pr.creationDate),
           ("title", jsonStr pr.title),
           ("isDraft", toString pr.isDraft)]

/-- The projection of `list_pull_requests_by_project` (lines 253–265), which
additionally keeps the repository name. -/
def serializePrByProject (pr : PullRequest) : String :=
  jsonObj [("pullRequestId", toString pr.pullRequestId),
           ("codeReviewId", toString pr.codeReviewId),
           ("repository", jsonOptStr pr.repositoryName),
           ("status", toString pr.status),
           ("createdBy", jsonObj
              [("displayName", jsonOptStr pr.createdByDisplayName),
               ("uniqueName", jsonOptStr pr.createdByUniqueName)]),
           ("creationDate", jsonStr pr.creationDate),
           ("title", jsonStr pr.title),
           ("isDraft", jsonStr (toString pr.isDraft))]

/-- Serialisation of `pullRequests?.map(...)`. -/
def serializeOptPrs (projection : PullRequest → String) :
    Option (List PullRequest) → String
  | none => "undefined"
  | some l => jsonArray (l.map projection)

/-- The tail both listing handlers share: issue the single pull-request query
with the criteria built so far, shape the result (lines 185–209 / 247–272).
`callsSoFar` are the remote calls already issued by the invocation. -/
def runPrQuery
    (query : SearchCriteria → Except JsError (Option (List PullRequest)))
    (projection : PullRequest → String)
    (criteria : SearchCriteria) (callsSoFar : List PrRemoteCall) :
    Except JsError ToolResult × List PrRemoteCall :=
  match query criteria with
  | .error e => (.error e, callsSoFar ++ [.pullRequestQuery criteria])
  | .ok pullRequests =>
      (.ok { content := [⟨serializeOptPrs projection pullRequests⟩] },
       callsSoFar ++ [.pullRequestQuery criteria])

/-- The `repo_list_pull_requests_by_repo` handler (lines 148–210).  No
`try/catch`: errors propagate.  The trace records the identity lookup and the
pull-request query with the criteria actually sent, in issue order. -/
def list_pull_requests_by_repo
    (connect : Except JsError Unit)
    (getCurrentUserDetails : Except JsError ConnectionData)
    (getPullRequests : String → SearchCriteria →
      Except JsError (Option (List PullRequest)))
    (repositoryId : String) (created_by_me i_am_reviewer : Bool) :
    Except JsError ToolResult × List PrRemoteCall :=
  match connect with
  | .error e => (.error e, [])
  | .ok _ =>
      let searchCriteria : SearchCriteria :=
        { status := 1, repositoryId := some repositoryId }
      if created_by_me || i_am_reviewer then
        match getCurrentUserDetails with
        | .error e => (.error e, [.identityLookup])
        | .ok data =>
            let userId := data.authenticatedUser.id
            runPrQuery (getPullRequests repositoryId) serializePrByRepo
              { searchCriteria with
                creatorId := if created_by_me then some userId else none
                reviewerId := if i_am_reviewer then some userId else none }
              [.identityLookup]
      else
        runPrQuery (getPullRequests repositoryId) serializePrByRepo
          searchCriteria []

/-- The `repo_list_pull_requests_by_project` handler (lines 212–273); same
shape, criteria without `repositoryId`. -/
def list_pull_requests_by_project
    (connect : Except JsError Unit)
    (getCurrentUserDetails : Except JsError ConnectionData)
    (getPullRequestsByProject : String → SearchCriteria →
      Except JsError (Option (List PullRequest)))
    (project : String) (created_by_me i_am_reviewer : Bool) :
    Except JsError ToolResult × List PrRemoteCall :=
  match connect with
  | .error e => (.error e, [])
  | .ok _ =>
      let gitPullRequestSearchCriteria : SearchCriteria := { status := 1 }
      if created_by_me || i_am_reviewer then
        match getCurrentUserDetails with
        | .error e => (.error e, [.identityLookup])
        | .ok data =>
            let userId := data.authenticatedUser.id
            runPrQuery (getPullRequestsByProject project) serializePrByProject
              { gitPullRequestSearchCriteria with
                creatorId := if created_by_me then some userId else none
                reviewerId := if i_am_reviewer then some userId else none }
              [.identityLookup]
      else
        runPrQuery (getPullRequestsByProject project) serializePrByProject
          gitPullRequestSearchCriteria []

/-- Every pull-request query call carries `status = 1`; identity lookups are
vacuously fine. -/
def queryStatusIsOne : PrRemoteCall → Bool
  | .identityLookup => true
  | .pullRequestQuery c => c.status == 1

/-! ## `repo_get_branch_by_name` (lines 411–439) -/

def serializeGitRef (b : GitRef) : String :=
  jsonObj [("name", jsonOptStr b.name)]

/-- The `repo_get_branch_by_name` handler.  `getRefs` models the remote ref
listing (`none` a nullish result, making `branches?.find` yield `undefined`).
Neither return branch carries an `isError` field.  No `try/catch`: a thrown
error propagates. -/
def get_branch_by_name
    (connect : Except JsError Unit)
    (getRefs : Except JsError (Option (List GitRef)))
    (repositoryId branchName : String) :
    Except JsError ToolResult :=
  match connect with
  | .error e => .error e
  | .ok _ =>
      match getRefs with
      | .error e => .error e
      | .ok branches =>
          let branch :=
            match branches with
            | none => none
            | some l =>
                l.find? fun b => b.name == some ("refs/heads/" ++ branchName)
          match branch with
          | none =>
              .ok { content :=
                      [⟨"Branch " ++ branchName ++ " not found in repository "
                          ++ repositoryId⟩] }
          | some b => .ok { content := [⟨serializeGitRef b⟩] }

theorem replaceFirstChars_of_isPrefixOf (pat l : List Char)
    (h : pat.isPrefixOf l = true) :
    replaceFirstChars pat l = l.drop pat.length := by
  cases l with
  | nil =>
    have hp : pat = [] := by
      cases pat with
      | nil => rfl
      | cons c cs => simp [List.isPrefixOf] at h
    subst hp
    simp [replaceFirstChars]
  | cons c rest =>
    simp [replaceFirstChars, h]

theorem jsReplaceFirst_of_startsWith (s : String)
    (h : jsStartsWith s headsNamespace = true) :
    jsReplaceFirst s headsNamespace = stringDrop s headsNamespace.length := by
  unfold jsReplaceFirst stringDrop
  rw [replaceFirstChars_of_isPrefixOf _ _ h]
  rfl

/-- C3: the branch transformation agrees with the spec-side
filter · strip · truncate description on every input. -/
theorem branchesFilter_eq_spec (refs : List GitRef) (top : Nat) :
    branchesFilterOutIrrelevantProperties refs top
      = branchNamesSpec (collectRefNames refs) top := by
  unfold branchesFilterOutIrrelevantProperties branchNamesSpec
  congr 1
  apply List.map_congr_left
  intro n hn
  exact jsReplaceFirst_of_startsWith n (List.mem_filter.mp hn).2

theorem branchNamesSpec_eq_nil (l : List String) (top : Nat)
    (h : ∀ n ∈ l, jsStartsWith n headsNamespace = false) :
    branchNamesSpec l top = [] := by
  unfold branchNamesSpec
  have hf : l.filter (fun n => jsStartsWith n headsNamespace) = [] :=
    List.filter_eq_nil_iff.mpr (fun a ha => by simp [h a ha])
  rw [hf]
  simp

/-- C3: the branch transformation of `branchesFilterOutIrrelevantProperties`
keeps exactly the collected ref names starting with `refs/heads/`, strips that
leading namespace, and truncates to at most `top` elements, in that order
(truncation after filtering), preserving input order; and on the spec's
concrete refs it yields `["main", "dev"]` for `top = 10` and `["main"]` for
`top = 1`. -/
theorem claim_c3_branch_filter :
    (∀ (refs : List GitRef) (top : Nat),
        branchesFilterOutIrrelevantProperties refs top
          = branchNamesSpec (collectRefNames refs) top
        ∧ (branchesFilterOutIrrelevantProperties refs top).length ≤ top)
    ∧ branchesFilterOutIrrelevantProperties
        [⟨some "refs/heads/main"⟩, ⟨some "refs/tags/v1"⟩,
         ⟨some "refs/heads/dev"⟩] 10
        = ["main", "dev"]
    ∧ branchesFilterOutIrrelevantProperties
        [⟨some "refs/heads/main"⟩, ⟨some "refs/tags/v1"⟩,
         ⟨some "refs/heads/dev"⟩] 1
        = ["main"] := by
  refine ⟨fun refs top => ⟨branchesFilter_eq_spec refs top, ?_⟩, ?_, ?_⟩
  · unfold branchesFilterOutIrrelevantProperties
    exact List.length_take_le top _
  · decide
  · decide

/-- C8 as stated is false: the transformation is not idempotent, because its
output names no longer carry the `refs/heads/` namespace; re-applying it to
the output `["main"]` of the input `refs/heads/main` yields `[]`, not
`["main"]`. -/
theorem claim_c8_counterexample :
    branchesFilterOutIrrelevantProperties
        ((branchesFilterOutIrrelevantProperties
            [⟨some "refs/heads/main"⟩] 10).map fun n => GitRef.mk (some n)) 10
      ≠ branchesFilterOutIrrelevantProperties [⟨some "refs/heads/main"⟩] 10 := by
  decide

/-- C8 amended: the transformation is order-preserving but not idempotent.
Its output is a fixed point of the truncation step alone (taking at most
`top` elements of the output leaves it unchanged), and re-applying the full
transformation to its own output yields the empty list whenever no output
name still starts with `refs/heads/`. -/
theorem claim_c8_amended (names : List String) (top : Nat)
    (h : ∀ n ∈ branchNamesSpec names top,
      jsStartsWith n headsNamespace = false) :
    (branchNamesSpec names top).take top = branchNamesSpec names top
    ∧ branchNamesSpec (branchNamesSpec names top) top = [] := by
  constructor
  · unfold branchNamesSpec
    rw [List.take_take, Nat.min_self]
  · exact branchNamesSpec_eq_nil _ top h

/-- C8 amended, witnessed on the spec's own example input. -/
theorem claim_c8_amended_witness :
    (branchNamesSpec ["refs/heads/main"] 10).take 10
      = branchNamesSpec ["refs/heads/main"] 10
    ∧ branchNamesSpec (branchNamesSpec ["refs/heads/main"] 10) 10 = [] :=
  claim_c8_amended ["refs/heads/main"] 10 (by decide)

/-- C1 as stated is false: the `repo_reply_to_comment` handler has no
`try/catch`, so a remote failure for a nonexistent thread id is re-raised
past the handler instead of being converted to an `isError` envelope. -/
theorem claim_c1_counterexample :
    reply_to_comment (.ok ())
        (fun _ _ _ _ _ =>
          .error (.error "TF401180: The requested thread was not found."))
        "repo1" 10 999 "reply text" none
      = .error (.error "TF401180: The requested thread was not found.") := rfl

/-- C1 amended: only the handlers written with a `try/catch` (the core and
work tools, e.g. `core_list_project_teams`) convert every exception raised
during their execution into the envelope with a single text block naming the
operation and the underlying message and `isError: true`; the repo tool
handlers, `repo_reply_to_comment` included, have no catch, so any exception
raised during connection acquisition or the remote call propagates out of
the handler unhandled. -/
theorem claim_c1_amended :
    (∀ e, list_project_teams (.error e)
        = { content := [⟨"Error fetching project teams: " ++ e.caughtMessage⟩],
            isError := some true })
    ∧ (∀ (e : JsError)
         (cc : String → String → Nat → Nat → Option String →
           Except JsError Comment)
         (rid : String) (pid tid : Nat) (c : String) (proj : Option String),
        reply_to_comment (.error e) cc rid pid tid c proj = .error e)
    ∧ (∀ (cc : String → String → Nat → Nat → Option String →
           Except JsError Comment)
         (rid : String) (pid tid : Nat) (c : String) (proj : Option String)
         (e : JsError),
        cc c rid pid tid proj = .error e →
        reply_to_comment (.ok ()) cc rid pid tid c proj = .error e) := by
  refine ⟨fun e => rfl, fun e cc rid pid tid c proj => rfl, ?_⟩
  intro cc rid pid tid c proj e h
  simp [reply_to_comment, h]

/-- C1 amended, witnessed: a concrete failing remote call propagates. -/
theorem claim_c1_amended_witness :
    reply_to_comment (.ok ())
        (fun _ _ _ _ _ => .error (.error "boom")) "r1" 1 2 "hi" none
      = .error (.error "boom") :=
  claim_c1_amended.2.2 _ "r1" 1 2 "hi" none _ rfl

/-- C2 as stated is false: an empty (but present) upstream array is truthy in
JavaScript, so `core_list_project_teams` serialises it without any `isError`
flag, and `repo_list_repos_by_project` has no emptiness check at all and
returns the serialised empty list as a plain success envelope. -/
theorem claim_c2_counterexample :
    (list_project_teams (.ok (some []))).isError = none
    ∧ list_repos_by_project (.ok (some [])) = .ok { content := [⟨"[]"⟩] } := by
  exact ⟨rfl, rfl⟩

/-- C2 amended: the "not found"-style `isError: true` branch of the core and
work list tools fires only when the upstream result is nullish, not when it
is an empty array; an empty array is serialised and returned with no
`isError` flag, and the repo list tools have no such branch at all. -/
theorem claim_c2_amended :
    list_project_teams (.ok none)
      = { content := [⟨"No teams found"⟩], isError := some true }
    ∧ (∀ teams, list_project_teams (.ok (some teams))
        = { content := [⟨jsonArray (teams.map serializeTeam)⟩] })
    ∧ (∀ repos, list_repos_by_project (.ok (some repos))
        = .ok { content :=
            [⟨jsonArray ((repos.map filterRepo).map serializeFilteredRepo)⟩] }) := by
  exact ⟨rfl, fun teams => rfl, fun repos => rfl⟩

/-- C4 names a code bug: the handler's arrow function destructures only
`repositoryId` and `pullRequestId`, so the validated `status` argument is
never bound; the identifier `status` in the ternary resolves to nothing and
evaluation throws `ReferenceError: status is not defined` before any update
call.  For every argument value — `"active"` included — the handler issues no
`updatePullRequest` call at all, so the documented "active" → 3,
"abandoned" → 2 table is never applied to the argument. -/
theorem claim_c4_status_ignored :
    (∀ (upd : Int → String → Int → Except JsError String)
       (rid : String) (pid : Int) (status : String),
        update_pull_request_status (.ok ()) upd rid pid status
          = (.error (.referenceError "status"), []))
    ∧ update_pull_request_status (.ok ())
        (fun _ _ _ => .ok "updated") "repo1" 42 "active"
        = (.error (.referenceError "status"), []) := by
  exact ⟨fun upd rid pid _ => rfl, rfl⟩

/-- C5: connection construction uses a PAT handler built from the startup
secret, with no identity-provider call, whenever the secret is truthy (no
validation of its form beyond truthiness); otherwise each construction issues
exactly one fresh token request scoped to the fixed resource audience, a
failing request propagates its error with no retry, and a successful one
yields a bearer handler carrying the issued token. -/
theorem claim_c5_auth (adoPat : Option String) (orgUrl : String)
    (credentialGetToken : String → Except JsError AccessToken) :
    (jsTruthyStr adoPat = true →
      getAzureDevOpsClient adoPat orgUrl credentialGetToken
        = (.ok ⟨orgUrl, .patHandler (adoPat.getD "")⟩, []))
    ∧ (jsTruthyStr adoPat = false →
        (∀ e, credentialGetToken azureDevOpsResource = .error e →
          getAzureDevOpsClient adoPat orgUrl credentialGetToken
            = (.error e, [azureDevOpsResource]))
        ∧ (∀ t, credentialGetToken azureDevOpsResource = .ok t →
            getAzureDevOpsClient adoPat orgUrl credentialGetToken
              = (.ok ⟨orgUrl, .bearerHandler t.token⟩,
                 [azureDevOpsResource]))) := by
  refine ⟨fun h => ?_, fun h => ⟨fun e he => ?_, fun t ht => ?_⟩⟩
  · simp [getAzureDevOpsClient, h]
  · simp [getAzureDevOpsClient, getAzureDevOpsToken, h, he]
  · simp [getAzureDevOpsClient, getAzureDevOpsToken, h, ht]

/-- C5 witnessed on both branches: a supplied secret selects the PAT handler
with no token request; an absent secret requests one token at the fixed
audience and wraps it in a bearer handler. -/
theorem claim_c5_auth_witness :
    getAzureDevOpsClient (some "secret") "https://dev.azure.com/org"
        (fun _ => .ok ⟨"issued-token"⟩)
      = (.ok ⟨"https://dev.azure.com/org", .patHandler "secret"⟩, [])
    ∧ getAzureDevOpsClient none "https://dev.azure.com/org"
        (fun _ => .ok ⟨"issued-token"⟩)
      = (.ok ⟨"https://dev.azure.com/org", .bearerHandler "issued-token"⟩,
         [azureDevOpsResource]) :=
  ⟨(claim_c5_auth (some "secret") "https://dev.azure.com/org"
      (fun _ => .ok ⟨"issued-token"⟩)).1 (by decide),
   ((claim_c5_auth none "https://dev.azure.com/org"
      (fun _ => .ok ⟨"issued-token"⟩)).2 rfl).2 ⟨"issued-token"⟩ rfl⟩

theorem createIterationsLoop_all_ok
    (f : CreateNodeCall → ClassificationNode) (project : String) :
    ∀ l : List IterationArgs,
      createIterationsLoop (fun c => .ok (some (f c))) project l
        = (.ok (l.map fun it => f (mkCreateNodeCall project it)),
           l.map (mkCreateNodeCall project)) := by
  intro l
  induction l with
  | nil => rfl
  | cons it rest ih => simp [createIterationsLoop, ih]

/-- C6: with a remote that returns a created node for every call, the
iteration-creation handler issues exactly one classification-node create call
per input element, sequentially in input order, and returns a success
envelope (no error flag) whose single text block serialises the created
nodes in that same order. -/
theorem claim_c6_create_iterations
    (f : CreateNodeCall → ClassificationNode)
    (project : String) (iterations : List IterationArgs)
    (hne : iterations ≠ []) :
    create_iterations (.ok ()) (fun c => .ok (some (f c))) project iterations
      = ({ content := [⟨jsonArray ((iterations.map fun it =>
              f (mkCreateNodeCall project it)).map serializeNode)⟩] },
         iterations.map (mkCreateNodeCall project)) := by
  cases iterations with
  | nil => exact absurd rfl hne
  | cons it rest =>
      simp [create_iterations, createIterationsLoop_all_ok]

/-- C6 witnessed on the spec's scenario: two iterations for project `P`
produce exactly two create calls in the given order and a success envelope
listing the two created nodes in the same order. -/
theorem claim_c6_witness :
    create_iterations (.ok ())
        (fun c => .ok (some ⟨1, c.name⟩)) "P"
        [⟨"Sprint 1", none, none⟩,
         ⟨"Sprint 2", some "2024-01-01T00:00:00Z", none⟩]
      = ({ content := [⟨jsonArray
            [serializeNode ⟨1, "Sprint 1"⟩, serializeNode ⟨1, "Sprint 2"⟩]⟩] },
         [⟨"Sprint 1", none, none, "P"⟩,
          ⟨"Sprint 2", some "2024-01-01T00:00:00Z", none, "P"⟩]) := by
  exact claim_c6_create_iterations (fun c => ⟨1, c.name⟩) "P"
    [⟨"Sprint 1", none, none⟩, ⟨"Sprint 2", some "2024-01-01T00:00:00Z", none⟩]
    (by simp)

theorem runPrQuery_trace
    (query : SearchCriteria → Except JsError (Option (List PullRequest)))
    (projection : PullRequest → String)
    (criteria : SearchCriteria) (callsSoFar : List PrRemoteCall) :
    (runPrQuery query projection criteria callsSoFar).2
      = callsSoFar ++ [.pullRequestQuery criteria] := by
  unfold runPrQuery
  cases query criteria <;> rfl

/-- C7: when `created_by_me` or `i_am_reviewer` is set, each listing handler
issues exactly one identity lookup, strictly before its single pull-request
query, and the query's creator/reviewer criteria are built from the lookup's
authenticated user id; with both flags clear, no identity lookup happens and
the single query uses the base criteria. -/
theorem claim_c7_identity_lookup_order
    (gpr gprp : String → SearchCriteria →
      Except JsError (Option (List PullRequest)))
    (data : ConnectionData) (rid project : String) (cbm iar : Bool) :
    ((cbm || iar) = true →
      (list_pull_requests_by_repo (.ok ()) (.ok data) gpr rid cbm iar).2
        = [.identityLookup, .pullRequestQuery
            { status := 1, repositoryId := some rid,
              creatorId := if cbm then some data.authenticatedUser.id else none,
              reviewerId := if iar then some data.authenticatedUser.id else none }]
      ∧ (list_pull_requests_by_project (.ok ()) (.ok data) gprp project cbm iar).2
        = [.identityLookup, .pullRequestQuery
            { status := 1,
              creatorId := if cbm then some data.authenticatedUser.id else none,
              reviewerId := if iar then some data.authenticatedUser.id else none }])
    ∧ (cbm = false → iar = false →
      (list_pull_requests_by_repo (.ok ()) (.ok data) gpr rid cbm iar).2
        = [.pullRequestQuery { status := 1, repositoryId := some rid }]
      ∧ (list_pull_requests_by_project (.ok ()) (.ok data) gprp project cbm iar).2
        = [.pullRequestQuery { status := 1 }]) := by
  constructor
  · intro h
    constructor
    · simp only [list_pull_requests_by_repo, h, if_true, runPrQuery_trace]
      rfl
    · simp only [list_pull_requests_by_project, h, if_true, runPrQuery_trace]
      rfl
  · intro hc hi
    subst hc; subst hi
    constructor
    · simp [list_pull_requests_by_repo, runPrQuery_trace]
    · simp [list_pull_requests_by_project, runPrQuery_trace]

/-- C7 witnessed: with `created_by_me` set, the by-repo handler's trace is
exactly the identity lookup followed by one query whose creator criterion is
the looked-up user id. -/
theorem claim_c7_witness :
    (list_pull_requests_by_repo (.ok ()) (.ok ⟨⟨"user-1"⟩⟩)
        (fun _ _ => .ok (some [])) "repo1" true false).2
      = [.identityLookup, .pullRequestQuery
          { status := 1, repositoryId := some "repo1",
            creatorId := some "user-1", reviewerId := none }] := by
  have h := (claim_c7_identity_lookup_order (fun _ _ => .ok (some []))
      (fun _ _ => .ok (some [])) ⟨⟨"user-1"⟩⟩ "repo1" "proj" true false).1
      (by decide)
  exact h.1

/-- C9: every pull-request query either listing handler ever issues carries
`status = 1` (active) in its search criteria, whatever the arguments and
whatever the remote results: no input can change or remove the restriction
to active pull requests. -/
theorem claim_c9_only_active
    (connect : Except JsError Unit) (gcud : Except JsError ConnectionData)
    (gpr gprp : String → SearchCriteria →
      Except JsError (Option (List PullRequest)))
    (rid project : String) (cbm iar : Bool) :
    ((list_pull_requests_by_repo connect gcud gpr rid cbm iar).2.all
        queryStatusIsOne = true)
    ∧ ((list_pull_requests_by_project connect gcud gprp project cbm iar).2.all
        queryStatusIsOne = true) := by
  constructor
  · unfold list_pull_requests_by_repo
    cases connect with
    | error e => rfl
    | ok _ =>
        cases hf : (cbm || iar) with
        | false =>
            simp [hf, runPrQuery_trace, queryStatusIsOne]
        | true =>
            simp only [hf, if_true]
            cases gcud with
            | error e => rfl
            | ok data =>
                simp [runPrQuery_trace, queryStatusIsOne]
  · unfold list_pull_requests_by_project
    cases connect with
    | error e => rfl
    | ok _ =>
        cases hf : (cbm || iar) with
        | false =>
            simp [hf, runPrQuery_trace, queryStatusIsOne]
        | true =>
            simp only [hf, if_true]
            cases gcud with
            | error e => rfl
            | ok data =>
                simp [runPrQuery_trace, queryStatusIsOne]

/-- C10: when the repository's refs contain no ref named exactly
`refs/heads/<branchName>`, `repo_get_branch_by_name` returns a success-shaped
envelope whose single text block is the not-found message and whose
`isError` field is absent — the same absent flag a found branch gets, so the
two cases cannot be told apart by the error flag alone. -/
theorem claim_c10_branch_not_found (refs : List GitRef) (rid bname : String)
    (h : refs.all (fun b => !(b.name == some ("refs/heads/" ++ bname))) = true) :
    get_branch_by_name (.ok ()) (.ok (some refs)) rid bname
      = .ok { content := [⟨"Branch " ++ bname ++ " not found in repository "
                            ++ rid⟩],
              isError := none }
    ∧ ∀ b : GitRef, b.name = some ("refs/heads/" ++ bname) →
        get_branch_by_name (.ok ()) (.ok (some (b :: refs))) rid bname
          = .ok { content := [⟨serializeGitRef b⟩], isError := none } := by
  constructor
  · have hf : refs.find? (fun b => b.name == some ("refs/heads/" ++ bname))
        = none := by
      apply List.find?_eq_none.mpr
      intro x hx
      have hx2 := List.all_eq_true.mp h x hx
      simpa using hx2
    simp [get_branch_by_name, hf]
  · intro b hb
    have hf : (b :: refs).find? (fun r => r.name == some ("refs/heads/" ++ bname))
        = some b := by
      simp [List.find?_cons, hb]
    simp [get_branch_by_name, hf]

/-- C10 witnessed: looking up branch `dev` among refs holding only
`refs/heads/main` yields the not-found text with no error flag. -/
theorem claim_c10_witness :
    get_branch_by_name (.ok ()) (.ok (some [⟨some "refs/heads/main"⟩]))
        "repo1" "dev"
      = .ok { content := [⟨"Branch dev not found in repository repo1"⟩],
              isError := none } := by
  have h := (claim_c10_branch_not_found [⟨some "refs/heads/main"⟩]
      "repo1" "dev" (by decide)).1
  exact h
